import Mathlib

/-
  Verification of the swerve bring-up drive subsystem
  (src/subsystems/drive.py and src/robot.py).

  Floats are embedded as rationals; motor commands and driver-station
  warnings are recorded as an explicit effect trace; Python exceptions
  become an error type threaded through Except; the runtime-reflection
  module probing is modelled by an explicit environment listing the
  outcome of each candidate probe in order.
-/

namespace RobotDrive

/-- Python exception classes that the drive module distinguishes. -/
inductive PyExc where
  | typeError
  | runtimeError (msg : String)
  | other (code : Nat)
deriving DecidableEq, Repr

/-- Observable side effects of the drive subsystem: duty-cycle commands
sent to drive and steer motors, motor-handle creation, and non-fatal
driver-station warnings. -/
inductive Effect where
  | setDriveMotor (motorId : Nat) (duty : ℚ)
  | setSteerMotor (motorId : Nat) (duty : ℚ)
  | createMotor (motorId : Nat)
  | warn (msg : String)
deriving DecidableEq, Repr

/-- A schedulable command object as seen by get_autonomous_command: the
hasSchedule flag models the hasattr check for a schedule attribute, and
run is the effect trace produced when the command executes. -/
structure CmdObj where
  hasSchedule : Bool
  run : List Effect

/-- Behaviour of an autonomous-command factory callable: calling it with
no arguments, and calling it with the drive subsystem as argument. -/
structure Factory where
  callNoArgs : Except PyExc (Option CmdObj)
  callSelf : Except PyExc (Option CmdObj)

/-- An optional Tuner-generated drivetrain override object. driveMethod
is some f when the object exposes a callable drive attribute; calling f
either yields the effects the override performs or raises. getAutoMethod
is some r when the object exposes a callable get_autonomous_command
attribute, with r the (possibly None) value it returns. -/
structure TunerDrivetrain where
  driveMethod : Option (ℚ → ℚ → ℚ → Bool → Except PyExc (List Effect))
  getAutoMethod : Option (Option CmdObj)

/-- One swerve module entry of DriveConstants.MODULES. -/
structure SwerveModule where
  drive_motor_id : Nat
  steer_motor_id : Nat
deriving DecidableEq, Repr

/-- Modelled from the spec: utils/constants.py (DriveConstants) is not
among the sources, so the per-axis deadbands, per-axis maximum-output
gains and the module list are kept as abstract parameters; the spec fixes
only that there is one deadband and one gain per axis and a fixed 4-wheel
arrangement. -/
structure DriveConstantsT where
  TRANSLATION_DEADBAND : ℚ
  ROTATION_DEADBAND : ℚ
  MAX_TRANSLATION_OUTPUT : ℚ
  MAX_ROTATION_OUTPUT : ℚ
  MODULES : List SwerveModule

/-- The state of a constructed Drive object: the discovered override and
autonomous factory (None when absent) and the motor handle lists, in
module configuration order. -/
structure DriveState where
  tuner_drivetrain : Option TunerDrivetrain
  autonomous_factory : Option Factory
  drive_motors : List Nat
  steer_motors : List Nat

namespace Drive

/-- Drive._apply_deadband: zero the value when its magnitude is strictly
below the deadband, else return it unchanged. -/
def apply_deadband (value deadband : ℚ) : ℚ :=
  if |value| < deadband then 0 else value

/-- Drive._clamp: max(-1.0, min(1.0, value)). -/
def clamp (value : ℚ) : ℚ :=
  max (-1) (min 1 value)

/-- The open-loop bring-up mix of Drive.drive (lines 119-140): deadband
each axis, scale by the per-axis gain, emit the four clamped wheel
commands zipped against the drive motors in order, then the clamped
rotation to every steer motor. -/
def fallbackEffects (c : DriveConstantsT) (s : DriveState)
    (x_displacement y_displacement rotation : ℚ) : List Effect :=
  let x := apply_deadband x_displacement c.TRANSLATION_DEADBAND
            * c.MAX_TRANSLATION_OUTPUT
  let y := apply_deadband y_displacement c.TRANSLATION_DEADBAND
            * c.MAX_TRANSLATION_OUTPUT
  let omega := apply_deadband rotation c.ROTATION_DEADBAND
            * c.MAX_ROTATION_OUTPUT
  let drive_outputs : List ℚ :=
    [clamp (x + y + omega),   -- front left
     clamp (x - y - omega),   -- front right
     clamp (x - y + omega),   -- back left
     clamp (x + y - omega)]   -- back right
  (s.drive_motors.zip drive_outputs).map
      (fun p => Effect.setDriveMotor p.1 p.2)
    ++ s.steer_motors.map (fun m => Effect.setSteerMotor m (clamp omega))

/-- Drive.drive: prefer the override drive method when it exists and is
callable, swallowing only TypeError (falling back to the built-in mix);
other exceptions propagate; without a usable override, run the mix. -/
def drive (c : DriveConstantsT) (s : DriveState)
    (x_displacement y_displacement rotation : ℚ) (field_oriented : Bool) :
    Except PyExc (List Effect) :=
  match s.tuner_drivetrain with
  | some t =>
    match t.driveMethod with
    | some f =>
      match f x_displacement y_displacement rotation field_oriented with
      | .ok effs => .ok effs
      | .error PyExc.typeError =>
          .ok (fallbackEffects c s x_displacement y_displacement rotation)
      | .error e => .error e
    | none => .ok (fallbackEffects c s x_displacement y_displacement rotation)
  | none => .ok (fallbackEffects c s x_displacement y_displacement rotation)

/-- Drive.stop: command every drive motor then every steer motor to 0. -/
def stop (s : DriveState) : List Effect :=
  s.drive_motors.map (fun m => Effect.setDriveMotor m 0)
    ++ s.steer_motors.map (fun m => Effect.setSteerMotor m 0)

/-- The warning emitted when no autonomous command source is found. -/
def noAutoSourceMsg : String :=
  "No Phoenix 6 Tuner autonomous command source found; using stop command."

/-- Drive.get_autonomous_command: the override command when present,
schedulable and not None; else the factory-built command (retrying with
self on TypeError, propagating other exceptions); else warn and return an
InstantCommand wrapping stop. The first component of the result is the
effect trace emitted while building the command. -/
def get_autonomous_command (s : DriveState) :
    Except PyExc (List Effect × CmdObj) :=
  let viaTuner : Option CmdObj :=
    match s.tuner_drivetrain with
    | some t =>
      match t.getAutoMethod with
      | some (some cmd) => if cmd.hasSchedule then some cmd else none
      | _ => none
    | none => none
  match viaTuner with
  | some cmd => .ok ([], cmd)
  | none =>
    let fallback : Except PyExc (List Effect × CmdObj) :=
      .ok ([Effect.warn noAutoSourceMsg], ⟨true, stop s⟩)
    match s.autonomous_factory with
    | some f =>
      let called : Except PyExc (Option CmdObj) :=
        match f.callNoArgs with
        | .error PyExc.typeError => f.callSelf
        | r => r
      match called with
      | .error e => .error e
      | .ok (some cmd) => if cmd.hasSchedule then .ok ([], cmd) else fallback
      | .ok none => fallback
    | none => fallback

/-- Outcome of probing one candidate module for the Tuner drivetrain
class: the module import raises ModuleNotFoundError, the module exists
but lacks the class, the class constructor raises, or construction
succeeds. -/
inductive ProbeOutcome where
  | moduleMissing
  | classMissing
  | constructRaises (msg : String)
  | constructOk (t : TunerDrivetrain)

/-- Drive._try_create_tuner_drivetrain over the ordered candidate list:
skip missing modules and missing classes, warn and return None when a
found class fails to construct, return the first successfully constructed
override. The second component is the warning trace. -/
def try_create_tuner_drivetrain :
    List ProbeOutcome → Option TunerDrivetrain × List Effect
  | [] => (none, [])
  | ProbeOutcome.moduleMissing :: rest => try_create_tuner_drivetrain rest
  | ProbeOutcome.classMissing :: rest => try_create_tuner_drivetrain rest
  | ProbeOutcome.constructRaises msg :: _ => (none, [Effect.warn msg])
  | ProbeOutcome.constructOk t :: _ => (some t, [])

/-- Outcome of probing one candidate module for the autonomous-command
factory function. -/
inductive FactoryProbe where
  | moduleMissing
  | attrNotCallable
  | found (f : Factory)

/-- Drive._try_create_tuner_auto_factory over the ordered candidate list:
skip missing modules and non-callable attributes, return the first
callable factory found, else None. -/
def try_create_tuner_auto_factory : List FactoryProbe → Option Factory
  | [] => none
  | FactoryProbe.moduleMissing :: rest => try_create_tuner_auto_factory rest
  | FactoryProbe.attrNotCallable :: rest => try_create_tuner_auto_factory rest
  | FactoryProbe.found f :: _ => some f

/-- The import-time environment Drive.__init__ runs in: whether the
phoenix6 vendor module imported, and the probe outcomes for the override
and factory candidates. -/
structure InitEnv where
  phoenixAvailable : Bool
  tunerProbe : List ProbeOutcome
  factoryProbe : List FactoryProbe

/-- The RuntimeError message raised when phoenix6 is unavailable. -/
def phoenixMissingMsg : String :=
  "Phoenix 6 is required for swerve bring-up. Install project dependencies first."

/-- Drive.__init__: raise RuntimeError before anything else when the
vendor module is unavailable; otherwise discover the override and the
factory, then create one drive and one steer motor handle per configured
module, in order. The second component is the effect trace (discovery
warnings, then motor creations). -/
def init (c : DriveConstantsT) (env : InitEnv) :
    Except PyExc DriveState × List Effect :=
  if env.phoenixAvailable then
    let probed := try_create_tuner_drivetrain env.tunerProbe
    let factory := try_create_tuner_auto_factory env.factoryProbe
    let creations := (c.MODULES.map (fun m =>
      [Effect.createMotor m.drive_motor_id,
       Effect.createMotor m.steer_motor_id])).flatten
    (.ok { tuner_drivetrain := probed.1
           autonomous_factory := factory
           drive_motors := c.MODULES.map (fun m => m.drive_motor_id)
           steer_motors := c.MODULES.map (fun m => m.steer_motor_id) },
     probed.2 ++ creations)
  else
    (.error (PyExc.runtimeError phoenixMissingMsg), [])

end Drive

/-- The mixer outputs as the spec words them (section 4.1): after deadband
zeroing and per-axis gain scaling, the four clamped signed combinations
front-left = x+y+w, front-right = x-y-w, back-left = x-y+w,
back-right = x+y-w, and the steer command clamp(w). -/
def specMixOutputs (c : DriveConstantsT) (xd yd rot : ℚ) :
    (ℚ × ℚ × ℚ × ℚ) × ℚ :=
  let x := Drive.apply_deadband xd c.TRANSLATION_DEADBAND
            * c.MAX_TRANSLATION_OUTPUT
  let y := Drive.apply_deadband yd c.TRANSLATION_DEADBAND
            * c.MAX_TRANSLATION_OUTPUT
  let w := Drive.apply_deadband rot c.ROTATION_DEADBAND
            * c.MAX_ROTATION_OUTPUT
  ((Drive.clamp (x + y + w), Drive.clamp (x - y - w),
    Drive.clamp (x - y + w), Drive.clamp (x + y - w)), Drive.clamp w)

/-- A concrete constants record used by concrete evaluations. -/
def witnessConstants : DriveConstantsT :=
  { TRANSLATION_DEADBAND := 1/10
    ROTATION_DEADBAND := 2/10
    MAX_TRANSLATION_OUTPUT := 9/10
    MAX_ROTATION_OUTPUT := 1/2
    MODULES := [⟨1, 2⟩, ⟨3, 4⟩, ⟨5, 6⟩, ⟨7, 8⟩] }

/-- A concrete drive state with no override and no factory. -/
def witnessState : DriveState :=
  { tuner_drivetrain := none
    autonomous_factory := none
    drive_motors := [1, 3, 5, 7]
    steer_motors := [2, 4, 6, 8] }

/-- A concrete override whose drive method always raises TypeError. -/
def overrideTypeError : TunerDrivetrain :=
  { driveMethod := some (fun _ _ _ _ => .error PyExc.typeError)
    getAutoMethod := none }

/-- A concrete override whose drive method raises a non-TypeError. -/
def overrideOtherError : TunerDrivetrain :=
  { driveMethod := some (fun _ _ _ _ => .error (PyExc.other 7))
    getAutoMethod := none }

/-- A concrete state carrying the TypeError-raising override. -/
def stateTypeError : DriveState :=
  { tuner_drivetrain := some overrideTypeError
    autonomous_factory := none
    drive_motors := [1, 3, 5, 7]
    steer_motors := [2, 4, 6, 8] }

/-- A concrete state carrying the other-error-raising override. -/
def stateOtherError : DriveState :=
  { tuner_drivetrain := some overrideOtherError
    autonomous_factory := none
    drive_motors := [1, 3, 5, 7]
    steer_motors := [2, 4, 6, 8] }

/-- A concrete construction environment where phoenix6 imports but every
optional candidate module is missing. -/
def probeAllMissing : Drive.InitEnv :=
  { phoenixAvailable := true
    tunerProbe := [Drive.ProbeOutcome.moduleMissing,
      Drive.ProbeOutcome.moduleMissing, Drive.ProbeOutcome.moduleMissing]
    factoryProbe := [Drive.FactoryProbe.moduleMissing,
      Drive.FactoryProbe.moduleMissing, Drive.FactoryProbe.moduleMissing] }

namespace Drive

/-- Clamped values never exceed 1. -/
theorem clamp_le_one (v : ℚ) : clamp v ≤ 1 :=
  max_le (by norm_num) (min_le_left _ _)

/-- Clamped values are never below -1. -/
theorem neg_one_le_clamp (v : ℚ) : -1 ≤ clamp v :=
  le_max_left _ _

/-- Deadbanding zero yields zero for any threshold. -/
theorem apply_deadband_zero (deadband : ℚ) : apply_deadband 0 deadband = 0 := by
  unfold apply_deadband
  split <;> rfl

/-- A value strictly below the deadband is zeroed. -/
theorem apply_deadband_of_lt {v deadband : ℚ} (h : |v| < deadband) :
    apply_deadband v deadband = 0 :=
  if_pos h

/-- A value at or above the deadband passes through unchanged. -/
theorem apply_deadband_of_le {v deadband : ℚ} (h : deadband ≤ |v|) :
    apply_deadband v deadband = v :=
  if_neg (not_lt.mpr h)

/-- Without an override, drive runs the built-in mix. -/
theorem drive_of_no_override (c : DriveConstantsT) (s : DriveState)
    (xd yd rot : ℚ) (fo : Bool) (hov : s.tuner_drivetrain = none) :
    drive c s xd yd rot fo = .ok (fallbackEffects c s xd yd rot) := by
  unfold drive
  rw [hov]

/-- Every duty cycle appearing in the built-in mix lies in [-1, 1]. -/
theorem fallback_duty_bounds (c : DriveConstantsT) (s : DriveState)
    (xd yd rot : ℚ) (i : Nat) (v : ℚ)
    (h : Effect.setDriveMotor i v ∈ fallbackEffects c s xd yd rot ∨
         Effect.setSteerMotor i v ∈ fallbackEffects c s xd yd rot) :
    -1 ≤ v ∧ v ≤ 1 := by
  rcases h with h | h <;>
    simp only [fallbackEffects, List.mem_append, List.mem_map] at h
  · rcases h with ⟨p, hp, hpe⟩ | ⟨m, _, hme⟩
    · have h2 := (List.of_mem_zip hp).2
      have hv : p.2 = v := by
        injection hpe
      rw [hv] at h2
      simp only [List.mem_cons, List.not_mem_nil, or_false] at h2
      rcases h2 with h2 | h2 | h2 | h2 <;>
        exact h2 ▸ ⟨neg_one_le_clamp _, clamp_le_one _⟩
    · cases hme
  · rcases h with ⟨p, _, hpe⟩ | ⟨m, _, hme⟩
    · cases hpe
    · have hv : clamp (apply_deadband rot c.ROTATION_DEADBAND
          * c.MAX_ROTATION_OUTPUT) = v := by
        injection hme
      exact hv ▸ ⟨neg_one_le_clamp _, clamp_le_one _⟩

/-- With neither an override nor a factory, get_autonomous_command warns
and returns an instant stop command. -/
theorem get_auto_of_none (s : DriveState)
    (h1 : s.tuner_drivetrain = none) (h2 : s.autonomous_factory = none) :
    get_autonomous_command s =
      .ok ([Effect.warn noAutoSourceMsg], ⟨true, stop s⟩) := by
  unfold get_autonomous_command
  rw [h1, h2]

end Drive

/-- C1: with no drivetrain override, drive commands the four drive motors
in the fixed order front-left, front-right, back-left, back-right with
duty cycles clamp(x+y+w), clamp(x-y-w), clamp(x-y+w), clamp(x+y-w), where
x, y, w are the raw inputs after per-axis deadband zeroing and per-axis
maximum-output gain scaling, and every steer motor is commanded with the
single value clamp(w). -/
theorem drive_matches_spec_mixer (c : DriveConstantsT) (s : DriveState)
    (m0 m1 m2 m3 : Nat) (hm : s.drive_motors = [m0, m1, m2, m3])
    (hov : s.tuner_drivetrain = none) (xd yd rot : ℚ) (fo : Bool) :
    Drive.drive c s xd yd rot fo =
      .ok ([Effect.setDriveMotor m0 (specMixOutputs c xd yd rot).1.1,
            Effect.setDriveMotor m1 (specMixOutputs c xd yd rot).1.2.1,
            Effect.setDriveMotor m2 (specMixOutputs c xd yd rot).1.2.2.1,
            Effect.setDriveMotor m3 (specMixOutputs c xd yd rot).1.2.2.2]
           ++ s.steer_motors.map (fun m =>
                Effect.setSteerMotor m (specMixOutputs c xd yd rot).2)) := by
  rw [Drive.drive_of_no_override c s xd yd rot fo hov]
  simp only [Drive.fallbackEffects, specMixOutputs, hm,
    List.zip_cons_cons, List.zip_nil_right, List.map_cons, List.map_nil,
    List.nil_append, List.cons_append]

/-- C2: with no drivetrain override, every wheel duty cycle and the steer
duty cycle commanded by drive lies in the closed interval [-1, 1]. -/
theorem drive_outputs_in_range (c : DriveConstantsT) (s : DriveState)
    (xd yd rot : ℚ) (fo : Bool) (hov : s.tuner_drivetrain = none) :
    ∃ effs, Drive.drive c s xd yd rot fo = .ok effs ∧
      ∀ i v, (Effect.setDriveMotor i v ∈ effs ∨
              Effect.setSteerMotor i v ∈ effs) → -1 ≤ v ∧ v ≤ 1 :=
  ⟨Drive.fallbackEffects c s xd yd rot,
   Drive.drive_of_no_override c s xd yd rot fo hov,
   fun i v h => Drive.fallback_duty_bounds c s xd yd rot i v h⟩

/-- C3: an axis input strictly below its deadband threshold is treated as
exactly 0: the deadbanded value is 0, and the whole drive output equals
the output with that axis replaced by 0, so the axis contributes nothing
to any wheel or steer command. -/
theorem drive_deadband_zeroes_axis (c : DriveConstantsT) (s : DriveState)
    (xd yd rot : ℚ) (fo : Bool) (hov : s.tuner_drivetrain = none) :
    (|xd| < c.TRANSLATION_DEADBAND →
      Drive.apply_deadband xd c.TRANSLATION_DEADBAND = 0 ∧
      Drive.drive c s xd yd rot fo = Drive.drive c s 0 yd rot fo) ∧
    (|yd| < c.TRANSLATION_DEADBAND →
      Drive.apply_deadband yd c.TRANSLATION_DEADBAND = 0 ∧
      Drive.drive c s xd yd rot fo = Drive.drive c s xd 0 rot fo) ∧
    (|rot| < c.ROTATION_DEADBAND →
      Drive.apply_deadband rot c.ROTATION_DEADBAND = 0 ∧
      Drive.drive c s xd yd rot fo = Drive.drive c s xd yd 0 fo) := by
  refine ⟨fun h => ⟨Drive.apply_deadband_of_lt h, ?_⟩,
          fun h => ⟨Drive.apply_deadband_of_lt h, ?_⟩,
          fun h => ⟨Drive.apply_deadband_of_lt h, ?_⟩⟩ <;>
    rw [Drive.drive_of_no_override c s _ _ _ fo hov,
        Drive.drive_of_no_override c s _ _ _ fo hov] <;>
    simp only [Drive.fallbackEffects, Drive.apply_deadband_of_lt h,
      Drive.apply_deadband_zero]

/-- C4: stop commands every drive motor and every steer motor to exactly
0 duty cycle, for every possible state, and emits nothing else. -/
theorem stop_zeroes_all_motors (s : DriveState) :
    (∀ e ∈ Drive.stop s,
      (∃ i, e = Effect.setDriveMotor i 0) ∨ (∃ i, e = Effect.setSteerMotor i 0)) ∧
    (∀ m ∈ s.drive_motors, Effect.setDriveMotor m 0 ∈ Drive.stop s) ∧
    (∀ m ∈ s.steer_motors, Effect.setSteerMotor m 0 ∈ Drive.stop s) := by
  refine ⟨?_, ?_, ?_⟩
  · intro e he
    simp only [Drive.stop, List.mem_append, List.mem_map] at he
    rcases he with ⟨m, _, rfl⟩ | ⟨m, _, rfl⟩
    · exact Or.inl ⟨m, rfl⟩
    · exact Or.inr ⟨m, rfl⟩
  · intro m hm
    simp only [Drive.stop, List.mem_append, List.mem_map]
    exact Or.inl ⟨m, hm, rfl⟩
  · intro m hm
    simp only [Drive.stop, List.mem_append, List.mem_map]
    exact Or.inr ⟨m, hm, rfl⟩

/-- C5: when neither an override nor an autonomous factory was discovered,
get_autonomous_command returns a command that, when run, performs exactly
the effects of stop and nothing else. -/
theorem get_auto_without_sources (s : DriveState)
    (h1 : s.tuner_drivetrain = none) (h2 : s.autonomous_factory = none) :
    ∃ trace cmd, Drive.get_autonomous_command s = .ok (trace, cmd) ∧
      cmd.run = Drive.stop s :=
  ⟨[Effect.warn Drive.noAutoSourceMsg], ⟨true, Drive.stop s⟩,
   Drive.get_auto_of_none s h1 h2, rfl⟩

/-- C6: when the phoenix6 vendor module is unavailable at import time,
construction raises a RuntimeError immediately and no motor handle is
created (the effect trace is empty, so the motor lists are never
populated). -/
theorem init_fails_without_phoenix (c : DriveConstantsT)
    (env : Drive.InitEnv) (h : env.phoenixAvailable = false) :
    Drive.init c env =
      (.error (PyExc.runtimeError Drive.phoenixMissingMsg), []) := by
  unfold Drive.init
  rw [h]
  simp

/-- C7: when the override exposes a callable drive method, a TypeError it
raises is silently swallowed and the built-in mixer runs instead; a
successful override call is passed through; any other exception
propagates to the caller and the built-in mixer does not run. -/
theorem drive_override_typeerror_fallback (c : DriveConstantsT)
    (s : DriveState) (t : TunerDrivetrain)
    (f : ℚ → ℚ → ℚ → Bool → Except PyExc (List Effect))
    (xd yd rot : ℚ) (fo : Bool)
    (ht : s.tuner_drivetrain = some t) (hf : t.driveMethod = some f) :
    (f xd yd rot fo = .error PyExc.typeError →
      Drive.drive c s xd yd rot fo =
        .ok (Drive.fallbackEffects c s xd yd rot)) ∧
    (∀ effs, f xd yd rot fo = .ok effs →
      Drive.drive c s xd yd rot fo = .ok effs) ∧
    (∀ e, e ≠ PyExc.typeError → f xd yd rot fo = .error e →
      Drive.drive c s xd yd rot fo = .error e) := by
  refine ⟨?_, ?_, ?_⟩
  · intro h
    simp only [Drive.drive, ht, hf, h]
  · intro effs h
    simp only [Drive.drive, ht, hf, h]
  · intro e he h
    cases e with
    | typeError => exact absurd rfl he
    | runtimeError msg => simp only [Drive.drive, ht, hf, h]
    | other code => simp only [Drive.drive, ht, hf, h]

/-- Discovery emits warnings and nothing but warnings. -/
theorem Drive.try_create_warns_only (probes : List Drive.ProbeOutcome) :
    ∀ e ∈ (Drive.try_create_tuner_drivetrain probes).2,
      ∃ msg, e = Effect.warn msg := by
  induction probes with
  | nil =>
    intro e he
    simp [Drive.try_create_tuner_drivetrain] at he
  | cons o rest ih =>
    cases o with
    | moduleMissing => exact ih
    | classMissing => exact ih
    | constructRaises msg =>
      intro e he
      simp only [Drive.try_create_tuner_drivetrain, List.mem_singleton] at he
      exact ⟨msg, he⟩
    | constructOk t =>
      intro e he
      simp [Drive.try_create_tuner_drivetrain] at he

/-- When every probe merely misses its module or class, discovery
returns None and emits nothing. -/
theorem Drive.try_create_silent_when_absent (probes : List Drive.ProbeOutcome)
    (h : ∀ o ∈ probes, o = Drive.ProbeOutcome.moduleMissing ∨
         o = Drive.ProbeOutcome.classMissing) :
    Drive.try_create_tuner_drivetrain probes = (none, []) := by
  induction probes with
  | nil => rfl
  | cons o rest ih =>
    have hrest := ih (fun x hx => h x (List.mem_cons_of_mem o hx))
    rcases h o (List.mem_cons_self o rest) with rfl | rfl <;>
      simpa [Drive.try_create_tuner_drivetrain] using hrest

/-- C8 counterexample: with every candidate module missing, discovery
finds no override yet emits no warning during construction, refuting the
claim that a warning is emitted whenever no override exists. -/
theorem discovery_counterexample :
    ¬ ((Drive.try_create_tuner_drivetrain
          [Drive.ProbeOutcome.moduleMissing, Drive.ProbeOutcome.moduleMissing,
           Drive.ProbeOutcome.moduleMissing]).1 = none →
       (Drive.try_create_tuner_drivetrain
          [Drive.ProbeOutcome.moduleMissing, Drive.ProbeOutcome.moduleMissing,
           Drive.ProbeOutcome.moduleMissing]).2 ≠ []) := by
  intro h
  exact h rfl rfl

/-- C8 amended: discovery failure is never fatal — with the vendor module
present, construction succeeds whatever the probe outcomes; absence of
the optional classes degrades to the built-in mixer and a stop command;
the construction-time trace holds only non-fatal warnings, and a warning
is emitted there only when a found candidate class fails to construct
(pure absence of the candidate modules is silent; the no-source warning
comes later from get_autonomous_command). -/
theorem discovery_never_fatal (c : DriveConstantsT) (env : Drive.InitEnv)
    (hp : env.phoenixAvailable = true) :
    (∃ s, (Drive.init c env).1 = .ok s ∧
      (s.tuner_drivetrain = none → s.autonomous_factory = none →
        (Drive.get_autonomous_command s =
            .ok ([Effect.warn Drive.noAutoSourceMsg], ⟨true, Drive.stop s⟩) ∧
         ∀ xd yd rot fo, Drive.drive c s xd yd rot fo =
            .ok (Drive.fallbackEffects c s xd yd rot)))) ∧
    (∀ e ∈ (Drive.try_create_tuner_drivetrain env.tunerProbe).2,
      ∃ msg, e = Effect.warn msg) ∧
    ((∀ o ∈ env.tunerProbe, o = Drive.ProbeOutcome.moduleMissing ∨
        o = Drive.ProbeOutcome.classMissing) →
      (Drive.try_create_tuner_drivetrain env.tunerProbe).2 = []) := by
  refine ⟨?_, Drive.try_create_warns_only env.tunerProbe,
    fun h => by rw [Drive.try_create_silent_when_absent env.tunerProbe h]⟩
  refine ⟨{ tuner_drivetrain := (Drive.try_create_tuner_drivetrain env.tunerProbe).1
            autonomous_factory := Drive.try_create_tuner_auto_factory env.factoryProbe
            drive_motors := c.MODULES.map (fun m => m.drive_motor_id)
            steer_motors := c.MODULES.map (fun m => m.steer_motor_id) }, ?_,
    fun h1 h2 => ⟨Drive.get_auto_of_none _ h1 h2,
      fun xd yd rot fo => Drive.drive_of_no_override c _ xd yd rot fo h1⟩⟩
  unfold Drive.init
  rw [hp]
  simp

/-- C9: with no drivetrain override, the field_oriented flag has no
effect on drive: the outputs with the flag set are identical to the
outputs with it cleared. -/
theorem drive_field_oriented_irrelevant (c : DriveConstantsT)
    (s : DriveState) (xd yd rot : ℚ) (hov : s.tuner_drivetrain = none) :
    Drive.drive c s xd yd rot true = Drive.drive c s xd yd rot false := by
  rw [Drive.drive_of_no_override c s xd yd rot true hov,
      Drive.drive_of_no_override c s xd yd rot false hov]

/-- C10: the deadband comparison is strict: any value whose magnitude is
at least the threshold, including exactly at the threshold, passes
through _apply_deadband unchanged. -/
theorem deadband_comparison_strict (v deadband : ℚ)
    (h : deadband ≤ |v|) : Drive.apply_deadband v deadband = v :=
  Drive.apply_deadband_of_le h

/-- Witness for C1 at a concrete state and input. -/
theorem drive_matches_spec_mixer_witness :
    Drive.drive witnessConstants witnessState 1 0 0 false =
      .ok ([Effect.setDriveMotor 1 (specMixOutputs witnessConstants 1 0 0).1.1,
            Effect.setDriveMotor 3 (specMixOutputs witnessConstants 1 0 0).1.2.1,
            Effect.setDriveMotor 5 (specMixOutputs witnessConstants 1 0 0).1.2.2.1,
            Effect.setDriveMotor 7 (specMixOutputs witnessConstants 1 0 0).1.2.2.2]
           ++ witnessState.steer_motors.map (fun m =>
                Effect.setSteerMotor m (specMixOutputs witnessConstants 1 0 0).2)) :=
  drive_matches_spec_mixer witnessConstants witnessState 1 3 5 7 rfl rfl 1 0 0 false

/-- Witness for C2 at a concrete state and out-of-range inputs. -/
theorem drive_outputs_in_range_witness :
    ∃ effs, Drive.drive witnessConstants witnessState (3/2) (-2) (1/4) true =
        .ok effs ∧
      ∀ i v, (Effect.setDriveMotor i v ∈ effs ∨
              Effect.setSteerMotor i v ∈ effs) → -1 ≤ v ∧ v ≤ 1 :=
  drive_outputs_in_range witnessConstants witnessState (3/2) (-2) (1/4) true rfl

/-- Witness for C3 at a concrete sub-deadband x input. -/
theorem drive_deadband_zeroes_axis_witness :
    Drive.apply_deadband (1/20) witnessConstants.TRANSLATION_DEADBAND = 0 ∧
    Drive.drive witnessConstants witnessState (1/20) 1 1 false =
      Drive.drive witnessConstants witnessState 0 1 1 false :=
  (drive_deadband_zeroes_axis witnessConstants witnessState (1/20) 1 1 false rfl).1
    (by rw [show witnessConstants.TRANSLATION_DEADBAND = 1/10 from rfl,
            abs_of_nonneg (by norm_num : (0:ℚ) ≤ 1/20)]
        norm_num)

/-- Witness for C4 at a concrete state. -/
theorem stop_zeroes_all_motors_witness :
    Effect.setDriveMotor 1 0 ∈ Drive.stop witnessState ∧
    Effect.setSteerMotor 2 0 ∈ Drive.stop witnessState :=
  ⟨(stop_zeroes_all_motors witnessState).2.1 1 (by simp [witnessState]),
   (stop_zeroes_all_motors witnessState).2.2 2 (by simp [witnessState])⟩

/-- Witness for C5 at a concrete state with no sources. -/
theorem get_auto_without_sources_witness :
    ∃ trace cmd, Drive.get_autonomous_command witnessState = .ok (trace, cmd) ∧
      cmd.run = Drive.stop witnessState :=
  get_auto_without_sources witnessState rfl rfl

/-- Witness for C6 at a concrete environment lacking phoenix6. -/
theorem init_fails_without_phoenix_witness :
    Drive.init witnessConstants ⟨false, [], []⟩ =
      (.error (PyExc.runtimeError Drive.phoenixMissingMsg), []) :=
  init_fails_without_phoenix witnessConstants ⟨false, [], []⟩ rfl

/-- Witness for C7 at concrete raising overrides. -/
theorem drive_override_typeerror_fallback_witness :
    Drive.drive witnessConstants stateTypeError 1 1 1 false =
      .ok (Drive.fallbackEffects witnessConstants stateTypeError 1 1 1) ∧
    Drive.drive witnessConstants stateOtherError 1 1 1 false =
      .error (PyExc.other 7) :=
  ⟨(drive_override_typeerror_fallback witnessConstants stateTypeError
      overrideTypeError (fun _ _ _ _ => .error PyExc.typeError)
      1 1 1 false rfl rfl).1 rfl,
   (drive_override_typeerror_fallback witnessConstants stateOtherError
      overrideOtherError (fun _ _ _ _ => .error (PyExc.other 7))
      1 1 1 false rfl rfl).2.2 (PyExc.other 7) (by decide) rfl⟩

/-- Witness for the amended C8 at a concrete all-missing environment. -/
theorem discovery_never_fatal_witness :
    (∃ s, (Drive.init witnessConstants probeAllMissing).1 = .ok s ∧
      (s.tuner_drivetrain = none → s.autonomous_factory = none →
        (Drive.get_autonomous_command s =
            .ok ([Effect.warn Drive.noAutoSourceMsg], ⟨true, Drive.stop s⟩) ∧
         ∀ xd yd rot fo, Drive.drive witnessConstants s xd yd rot fo =
            .ok (Drive.fallbackEffects witnessConstants s xd yd rot)))) ∧
    (∀ e ∈ (Drive.try_create_tuner_drivetrain probeAllMissing.tunerProbe).2,
      ∃ msg, e = Effect.warn msg) ∧
    ((∀ o ∈ probeAllMissing.tunerProbe,
        o = Drive.ProbeOutcome.moduleMissing ∨
        o = Drive.ProbeOutcome.classMissing) →
      (Drive.try_create_tuner_drivetrain probeAllMissing.tunerProbe).2 = []) :=
  discovery_never_fatal witnessConstants probeAllMissing rfl

/-- Witness for C9 at a concrete state and input. -/
theorem drive_field_oriented_irrelevant_witness :
    Drive.drive witnessConstants witnessState 1 (1/2) (1/3) true =
      Drive.drive witnessConstants witnessState 1 (1/2) (1/3) false :=
  drive_field_oriented_irrelevant witnessConstants witnessState 1 (1/2) (1/3) rfl

/-- Witness for C10 at a value whose magnitude equals the threshold. -/
theorem deadband_comparison_strict_witness :
    Drive.apply_deadband (1/10) (1/10) = 1/10 :=
  deadband_comparison_strict (1/10) (1/10)
    (abs_of_nonneg (by norm_num : (0:ℚ) ≤ 1/10)).ge

end RobotDrive
